import Mathlib

/-!
Verification of the orchestration core of the AgentEnvironment repository.

The Python source is shallowly embedded: each pure method becomes a Lean
function, stateful methods become explicit state-passing functions, machine
timestamps become rationals, dictionaries become association lists or
structures restricted to the fields the code reads, and fallible calls return
`Except`/`Option`.  The embedded functions keep the source names.
-/

/-! ## String helpers (Python's `needle in hay` substring test) -/

/-- Auxiliary: the character list `needle` occurs contiguously in the second
argument.  An empty needle occurs in every string, matching Python. -/
def substr_aux (needle : List Char) : List Char → Bool
  | [] => needle.isEmpty
  | c :: cs => needle.isPrefixOf (c :: cs) || substr_aux needle cs

/-- Python's `needle in hay` for strings: substring containment. -/
def py_str_in (needle hay : String) : Bool :=
  substr_aux needle.data hay.data

/-! ## src/nimbus_guide.py — `ProjectProgress` (progress tracker) -/

/-- The static stage-requirements table built in `ProjectProgress.__init__`
(src/nimbus_guide.py lines 27-32), read through `dict.get(stage, [])` in
`is_stage_complete`, so every key outside the table yields `[]`. -/
def stage_requirements (stage : String) : List String :=
  if stage = "planning" then ["research_and_plan.md"]
  else if stage = "implementation" then ["main.py", "README.md"]
  else if stage = "testing" then ["test_main.py"]
  else if stage = "review" then ["code_analysis.md"]
  else []

/-- `ProjectProgress.is_stage_complete` (src/nimbus_guide.py lines 57-59):
`all(required_file in project_files for required_file in required_files)`. -/
def is_stage_complete (stage : String) (project_files : List String) : Bool :=
  (stage_requirements stage).all (fun required_file => project_files.contains required_file)

/-- The counters held in `ProjectProgress.metrics` (src/nimbus_guide.py lines
20-26).  `start_time` is a wall-clock timestamp, modelled as a rational. -/
structure ProgressMetrics where
  start_time : ℚ
  total_actions : ℕ
  errors_encountered : ℕ
  tests_written : ℕ
  commits_made : ℕ
deriving DecidableEq

/-- The parts of a `ProjectProgress` record that `analyze_progress` reads:
the ordered `actions_performed` log (only its length matters) and the
aggregate counters. -/
structure ProgressRecord where
  actions_performed : List String
  metrics : ProgressMetrics
deriving DecidableEq

/-- The four derived metrics returned by `ProjectProgress.analyze_progress`. -/
structure ProgressAnalysis where
  action_frequency : ℚ
  error_rate : ℚ
  test_coverage : ℚ
  commit_frequency : ℚ
deriving DecidableEq

/-- `ProjectProgress.analyze_progress` (src/nimbus_guide.py lines 49-55).
`now` stands for the `time.time()` call.  Note that `action_frequency`
divides by the raw elapsed time `now - start_time`, while the three
counter-based ratios divide by `max(total_actions, 1)`. -/
def analyze_progress (now : ℚ) (p : ProgressRecord) : ProgressAnalysis :=
  { action_frequency := (p.actions_performed.length : ℚ) / (now - p.metrics.start_time)
    error_rate := (p.metrics.errors_encountered : ℚ) / ((max p.metrics.total_actions 1 : ℕ) : ℚ)
    test_coverage := (p.metrics.tests_written : ℚ) / ((max p.metrics.total_actions 1 : ℕ) : ℚ)
    commit_frequency := (p.metrics.commits_made : ℚ) / ((max p.metrics.total_actions 1 : ℕ) : ℚ) }

/-- Modelled from the spec for a refinement comparison: the same four metrics
with every denominator floored at 1, as the spec's sentence "all denominators
are floored at 1 to avoid division by zero" describes. -/
def analyze_progress_claimed (now : ℚ) (p : ProgressRecord) : ProgressAnalysis :=
  { action_frequency := (p.actions_performed.length : ℚ) / max (now - p.metrics.start_time) 1
    error_rate := (p.metrics.errors_encountered : ℚ) / ((max p.metrics.total_actions 1 : ℕ) : ℚ)
    test_coverage := (p.metrics.tests_written : ℚ) / ((max p.metrics.total_actions 1 : ℕ) : ℚ)
    commit_frequency := (p.metrics.commits_made : ℚ) / ((max p.metrics.total_actions 1 : ℕ) : ℚ) }

/-! ## src/nimbus.py — `Nimbus` (orchestrator) -/

/-- The fields of an action-result dictionary that
`Nimbus.update_project_stage` reads via `.get`: `status`, `file` (both `None`
when absent) and `file_name` (read with default `''`, kept as an `Option` so
an absent key is distinguishable). -/
structure NActionResult where
  status : Option String
  file : Option String
  file_name : Option String
deriving DecidableEq

/-- The file names an action result carries (its `file` and `file_name`
fields, when present). -/
def result_files (r : NActionResult) : List String :=
  r.file.toList ++ r.file_name.toList

/-- `Nimbus.update_project_stage` (src/nimbus.py lines 256-266): advances
`current_stage` one step when the result status is `'success'` and the
result's `file` field names the stage's trigger artifact
(`research_and_plan.md` for planning, `main.py` for implementation, a
`file_name` containing `'test_'` for testing); otherwise the stage is kept. -/
def update_project_stage (current_stage : String) (action_result : NActionResult) : String :=
  if current_stage = "planning" ∧ action_result.status = some "success" then
    (if action_result.file = some "research_and_plan.md" then "implementation" else current_stage)
  else if current_stage = "implementation" ∧ action_result.status = some "success" then
    (if action_result.file = some "main.py" then "testing" else current_stage)
  else if current_stage = "testing" ∧ action_result.status = some "success" then
    (if py_str_in "test_" (action_result.file_name.getD "") then "review" else current_stage)
  else current_stage

/-- `Nimbus.save_interval` (src/nimbus.py line 38): 150 seconds. -/
def save_interval : ℚ := 150

/-- `Nimbus.check_and_save_memory` (src/nimbus.py lines 472-479) as a state
transformer on `last_save_time`: given the current time it returns the new
`last_save_time` and whether `save_memory_state` was invoked. -/
def check_and_save_memory (current_time last_save_time : ℚ) : ℚ × Bool :=
  if current_time - last_save_time ≥ save_interval then (current_time, true)
  else (last_save_time, false)

/-- A run of `check_and_save_memory` ticks at the given clock readings,
threading `last_save_time` and counting the saves performed. -/
def run_memory_ticks (last_save_time : ℚ) : List ℚ → ℚ × ℕ
  | [] => (last_save_time, 0)
  | t :: ts =>
    let step := check_and_save_memory t last_save_time
    let rest := run_memory_ticks step.1 ts
    (rest.1, (if step.2 then 1 else 0) + rest.2)

/-! ## src/knowledge_base.py — `KnowledgeBase` (persistence) -/

/-- The record pickled by `KnowledgeBase.save_memory_state` (src/knowledge_base.py
lines 268-277): `{'longterm_memory': ..., 'recent_experiences': ...}`.
`pickle.load` is the inverse of `pickle.dump` on these values, so the written
file is modelled as the record itself.  The memory map and experience list
types are parameters. -/
structure MemorySnapshot (μ ε : Type) where
  longterm_memory : μ
  recent_experiences : ε

/-- The `KnowledgeBase` state that `load_memory_state` touches. -/
structure KnowledgeBase (μ : Type) where
  longterm_memory : μ
  project_state : String

/-- `KnowledgeBase.save_memory_state`: builds and writes the snapshot record. -/
def save_memory_state {μ ε : Type} (kb : KnowledgeBase μ) (recent_experiences : ε) :
    MemorySnapshot μ ε :=
  { longterm_memory := kb.longterm_memory, recent_experiences := recent_experiences }

/-- `KnowledgeBase.load_memory_state` (src/knowledge_base.py lines 279-290):
on a readable file it overwrites `longterm_memory` from the snapshot and
returns `True`; a missing file (`None`) leaves the state alone and returns
`False`. -/
def load_memory_state {μ ε : Type} (kb : KnowledgeBase μ)
    (file : Option (MemorySnapshot μ ε)) : KnowledgeBase μ × Bool :=
  match file with
  | some state => ({ kb with longterm_memory := state.longterm_memory }, true)
  | none => (kb, false)

/-! ## src/actions.py — `Actions` (action registry and dispatcher) -/

/-- A string-keyed string dictionary (the result dictionaries the handlers
build from literal keys and values). -/
abbrev Dict := List (String × String)

/-- One entry of the static action catalog: the `name` and `type` fields read
by `priority_score`.  The inert `description` strings of the catalog entries
are omitted because no modelled code path reads them. -/
structure CatalogAction where
  name : String
  type : String
deriving DecidableEq

/-- Builds a catalog entry. -/
def mkAction (name type : String) : CatalogAction := { name := name, type := type }

/-- `Actions.get_available_actions` (src/actions.py lines 21-149): the static
catalog, flattened category by category in source order. -/
def get_available_actions : List CatalogAction := [
  mkAction "start_new_project" "project_management",
  mkAction "project_retrospective" "project_management",
  mkAction "research_and_plan" "code_development",
  mkAction "implement_initial_prototype" "code_development",
  mkAction "generate_code" "code_development",
  mkAction "run_code" "code_development",
  mkAction "write_tests" "code_development",
  mkAction "analyze_code" "code_development",
  mkAction "view_files" "file_management",
  mkAction "create_file" "file_management",
  mkAction "edit_file" "file_management",
  mkAction "save_file" "file_management",
  mkAction "delete_file" "file_management",
  mkAction "rename_file" "file_management",
  mkAction "move_file" "file_management",
  mkAction "copy_file" "file_management",
  mkAction "search_in_files" "file_management",
  mkAction "view_file_content" "file_management",
  mkAction "commit_changes" "git",
  mkAction "push_changes" "git",
  mkAction "pull_changes" "git",
  mkAction "merge_branches" "git",
  mkAction "resolve_conflicts" "git",
  mkAction "create_branch" "git",
  mkAction "delete_branch" "git",
  mkAction "switch_branch" "git",
  mkAction "view_commit_history" "git",
  mkAction "revert_commit" "git",
  mkAction "stash_changes" "git",
  mkAction "apply_stash" "git",
  mkAction "delete_stash" "git",
  mkAction "view_stash_list" "git",
  mkAction "create_tag" "git",
  mkAction "delete_tag" "git",
  mkAction "view_tags" "git",
  mkAction "checkout_tag" "git",
  mkAction "create_release" "git",
  mkAction "delete_release" "git",
  mkAction "view_releases" "git",
  mkAction "checkout_release" "git",
  mkAction "create_issue" "issue_tracking",
  mkAction "view_issues" "issue_tracking",
  mkAction "update_issue" "issue_tracking",
  mkAction "close_issue" "issue_tracking",
  mkAction "reopen_issue" "issue_tracking",
  mkAction "assign_issue" "issue_tracking",
  mkAction "unassign_issue" "issue_tracking",
  mkAction "comment_on_issue" "issue_tracking",
  mkAction "view_issue_comments" "issue_tracking",
  mkAction "create_pull_request" "pull_requests",
  mkAction "view_pull_requests" "pull_requests",
  mkAction "merge_pull_request" "pull_requests",
  mkAction "close_pull_request" "pull_requests",
  mkAction "comment_on_pull_request" "pull_requests",
  mkAction "view_pull_request_comments" "pull_requests",
  mkAction "review_pull_request" "pull_requests",
  mkAction "approve_pull_request" "pull_requests",
  mkAction "request_changes_on_pull_request" "pull_requests",
  mkAction "view_code_diff" "code_review",
  mkAction "view_code_blame" "code_review",
  mkAction "view_code_history" "code_review",
  mkAction "view_code_annotations" "code_review",
  mkAction "view_code_coverage" "code_review",
  mkAction "run_code_coverage" "code_review",
  mkAction "view_test_results" "testing",
  mkAction "run_unit_tests" "testing",
  mkAction "run_integration_tests" "testing",
  mkAction "run_system_tests" "testing",
  mkAction "run_acceptance_tests" "testing",
  mkAction "run_regression_tests" "testing",
  mkAction "run_smoke_tests" "testing",
  mkAction "run_performance_tests" "testing",
  mkAction "run_security_tests" "testing",
  mkAction "run_usability_tests" "testing",
  mkAction "run_compatibility_tests" "testing",
  mkAction "run_load_tests" "testing",
  mkAction "run_stress_tests" "testing",
  mkAction "run_reliability_tests" "testing",
  mkAction "run_maintainability_tests" "testing",
  mkAction "run_portability_tests" "testing",
  mkAction "run_interoperability_tests" "testing",
  mkAction "run_scalability_tests" "testing",
  mkAction "run_availability_tests" "testing",
  mkAction "run_durability_tests" "testing",
  mkAction "run_recoverability_tests" "testing",
  mkAction "run_installability_tests" "testing",
  mkAction "run_configuration_tests" "testing",
  mkAction "run_documentation_tests" "testing",
  mkAction "run_localization_tests" "testing",
  mkAction "run_internationalization_tests" "testing",
  mkAction "run_accessibility_tests" "testing",
  mkAction "run_compliance_tests" "testing",
  mkAction "run_audit_tests" "testing",
  mkAction "run_backup_tests" "testing",
  mkAction "run_restore_tests" "testing",
  mkAction "run_disaster_recovery_tests" "testing",
  mkAction "run_failover_tests" "testing",
  mkAction "run_failback_tests" "testing",
  mkAction "run_switchover_tests" "testing",
  mkAction "run_switchback_tests" "testing",
  mkAction "run_hotfix_tests" "testing",
  mkAction "run_patch_tests" "testing",
  mkAction "run_upgrade_tests" "testing",
  mkAction "run_downgrade_tests" "testing",
  mkAction "run_migration_tests" "testing",
  mkAction "run_conversion_tests" "testing",
  mkAction "run_transformation_tests" "testing"]

/-- The `Actions.context` dictionary (src/actions.py lines 13-17). -/
structure ActionsContext where
  project_state : String
  current_project : Option String
  recent_actions : List String
deriving DecidableEq

/-- What `Actions.log_action_result` records for one dispatch: either the
handler's result dictionary or, on a caught exception, `{"error": message}`. -/
inductive LogPayload where
  | ok (result : Dict)
  | err (message : String)
deriving DecidableEq

/-- The dispatcher state `execute_action` can touch: the mutable `context`
and the append-only action log written by `log_action_result`. -/
structure ActionsState where
  context : ActionsContext
  action_log : List (String × LogPayload)
deriving DecidableEq

/-- The action dictionary passed to `execute_action`: its `name` and
`details` entries. -/
structure ActionInvocation where
  name : String
  details : Dict

/-- A registered handler method: it receives the `details` dictionary, may
mutate the dispatcher state, and either returns a result dictionary or raises
(the `Except.error` case carries `str(e)`). -/
abbrev Handler := Dict → ActionsState → ActionsState × Except String Dict

/-- `Actions.execute_action` (src/actions.py lines 150-163).  `handlers`
models the `getattr(self, action_name, None)` lookup.  On a found handler the
result is logged (and the name appended to `recent_actions`); a raised
exception is caught and logged as `{"error": str(e)}`; an unknown action only
logs a warning to the logger.  The Python method has no `return` statement,
so the dispatch returns `None` on every path — modelled by the `none` second
component. -/
def execute_action (handlers : String → Option Handler) (st : ActionsState)
    (action : ActionInvocation) : ActionsState × Option Dict :=
  match handlers action.name with
  | some action_method =>
    match action_method action.details st with
    | (st1, Except.ok result) =>
      ({ st1 with
          context := { st1.context with
            recent_actions := st1.context.recent_actions ++ [action.name] },
          action_log := st1.action_log ++ [(action.name, LogPayload.ok result)] }, none)
    | (st1, Except.error e) =>
      ({ st1 with action_log := st1.action_log ++ [(action.name, LogPayload.err e)] }, none)
  | none => (st, none)

/-- `Actions.start_new_project` (src/actions.py lines 179-190) as a function
of the dispatcher state and the `details` dictionary.  It returns the new
state, the list of `details` dictionaries passed to the three `create_file`
calls (whose filesystem effects live behind the `EnvironmentManager`
collaborator), and the result dictionary. -/
def start_new_project (st : ActionsState) (details : Dict) :
    ActionsState × List Dict × Dict :=
  if st.context.project_state = "in_progress" then
    (st, [], [("status", "failed"), ("reason", "Project already in progress")])
  else
    let project_name := (details.lookup "project_name").getD "Unnamed Project"
    let st1 := { st with context := { st.context with
      project_state := "in_progress", current_project := some project_name } }
    (st1,
      [[("file_name", "README.md"),
        ("content", "# " ++ project_name ++ "\n\nProject description goes here.")],
       [("file_name", "main.py"),
        ("content", "# Main entry point for the project\n\ndef main():\n    pass\n\nif __name__ == \x27__main__\x27:\n    main()")],
       [("file_name", "requirements.txt"),
        ("content", "# List project dependencies here")]],
      [("status", "success"), ("message", "Project initialized with essential files")])

/-- The `priority_score` rule table nested in `Actions.prioritize_actions`
(src/actions.py lines 715-740), parameterised by
`context["project_state"]`. -/
def priority_score (project_state : String) (action : CatalogAction) : ℤ :=
  if project_state = "idle" ∧
      (action.name = "start_new_project" ∨ action.name = "continue_project") then 10
  else if project_state = "in_progress" then
    if action.type = "code_development" then 8
    else if action.type = "file_management" then 7
    else if action.type = "git" then 6
    else 5
  else if project_state = "review" then
    if action.type = "testing" then 9
    else if action.name = "analyze_code" then 8
    else 5
  else 5

/-- The preorder `sorted(..., key=priority_score, reverse=True)` sorts by:
descending score. -/
def score_desc (project_state : String) (a b : CatalogAction) : Prop :=
  priority_score project_state b ≤ priority_score project_state a

instance (project_state : String) : DecidableRel (score_desc project_state) :=
  fun a b => inferInstanceAs (Decidable (priority_score project_state b ≤ priority_score project_state a))

instance (project_state : String) : IsTotal CatalogAction (score_desc project_state) :=
  { total := fun a b => le_total (priority_score project_state b) (priority_score project_state a) }

instance (project_state : String) : IsTrans CatalogAction (score_desc project_state) :=
  { trans := fun _ _ _ h1 h2 => le_trans h2 h1 }

/-- `Actions.prioritize_actions` (src/actions.py lines 715-740): Python's
`sorted` is the stable sort by the comparison key, so it is embedded as the
stable insertion sort over the descending-score preorder; ties therefore keep
catalog order. -/
def prioritize_actions (project_state : String) : List CatalogAction :=
  List.insertionSort (score_desc project_state) get_available_actions

/-! ## src/consciousness_emulator.py — `ConsciousnessEmulator.select_action` -/

/-- The literal default dictionary of `ConsciousnessEmulator.select_action`
(src/consciousness_emulator.py lines 96, 101):
`{"name": "continue_project", "type": "default", "details": {}}`. -/
def default_selected_action : CatalogAction :=
  { name := "continue_project", type := "default" }

/-- `ConsciousnessEmulator.select_action` (src/consciousness_emulator.py
lines 82-101) as a function of the oracle outcome: `Except.error` models a
raised exception anywhere in the try block, `Except.ok none` a response
without a `selected_action` key, and `Except.ok (some a)` a response carrying
selection `a`.  Both failure shapes yield the fixed default action. -/
def select_action (response : Except String (Option CatalogAction)) : CatalogAction :=
  match response with
  | Except.ok r => r.getD default_selected_action
  | Except.error _ => default_selected_action

/-! ## Theorems for the claims -/

/-- Claim C5 (confirmed): for every stage and every list of known file names,
`is_stage_complete` returns `true` exactly when every required artifact name
for that stage is present in the file list by exact name equality; in
particular the two concrete `'testing'` examples hold. -/
theorem c5_stage_complete :
    (∀ (stage : String) (files : List String),
      is_stage_complete stage files = true ↔ ∀ f ∈ stage_requirements stage, f ∈ files) ∧
    is_stage_complete "testing" ["README.md", "main.py", "test_main.py"] = true ∧
    is_stage_complete "testing" ["README.md", "main.py"] = false := by
  refine ⟨fun stage files => ?_, by decide, by decide⟩
  simp [is_stage_complete, List.all_eq_true, List.elem_iff]

/-- Claim C10 (confirmed): for a stage name outside the four keys of the
stage-requirements table the required-file list defaults to `[]`, so
`is_stage_complete` holds vacuously for every file list, the empty one
included. -/
theorem c10_unknown_stage (stage : String) (files : List String)
    (h1 : stage ≠ "planning") (h2 : stage ≠ "implementation")
    (h3 : stage ≠ "testing") (h4 : stage ≠ "review") :
    stage_requirements stage = [] ∧ is_stage_complete stage files = true := by
  have hreq : stage_requirements stage = [] := by
    unfold stage_requirements
    rw [if_neg h1, if_neg h2, if_neg h3, if_neg h4]
  refine ⟨hreq, ?_⟩
  unfold is_stage_complete
  rw [hreq]
  rfl

/-- Claim C10 witness: the unknown stage `'deployment'` with an empty file
list is complete. -/
theorem c10_unknown_stage_witness :
    stage_requirements "deployment" = [] ∧ is_stage_complete "deployment" [] = true :=
  c10_unknown_stage "deployment" [] (by decide) (by decide) (by decide) (by decide)

/-- Claim C1 counterexample: with the stage `'implementation'` and a
successful result whose only file is `main.py`, the required artifact
`README.md` of the stage-requirements table is missing from the result's
file set, yet `update_project_stage` advances the stage to `'testing'` —
so a successful result with a missing required artifact can advance the
stage, contrary to the claim. -/
theorem c1_counterexample :
    update_project_stage "implementation"
      { status := some "success", file := some "main.py", file_name := none } = "testing" ∧
    "README.md" ∈ stage_requirements "implementation" ∧
    "README.md" ∉ result_files
      { status := some "success", file := some "main.py", file_name := none } := by
  decide

/-- Claim C1 (corrected): the stage never advances when the result status is
not `'success'`; and on a successful result the stage advances only when the
result names the stage's trigger artifact (`file == 'research_and_plan.md'`
for planning, `file == 'main.py'` for implementation, a `file_name`
containing `'test_'` for testing) — otherwise, and for every other stage, the
stage is unchanged.  In particular stage `'planning'` with a successful
result carrying no file stays `'planning'`. -/
theorem c1_stage_guard (stage : String) (r : NActionResult) :
    (r.status ≠ some "success" → update_project_stage stage r = stage) ∧
    (stage = "planning" → r.file ≠ some "research_and_plan.md" →
      update_project_stage stage r = stage) ∧
    (stage = "implementation" → r.file ≠ some "main.py" →
      update_project_stage stage r = stage) ∧
    (stage = "testing" → py_str_in "test_" (r.file_name.getD "") = false →
      update_project_stage stage r = stage) ∧
    (stage ≠ "planning" → stage ≠ "implementation" → stage ≠ "testing" →
      update_project_stage stage r = stage) := by
  unfold update_project_stage
  refine ⟨fun h => ?_, fun h1 h2 => ?_, fun h1 h2 => ?_, fun h1 h2 => ?_,
    fun h1 h2 h3 => ?_⟩ <;> split_ifs <;> simp_all

/-- Claim C1 witness: a successful planning result with no file leaves the
stage at `'planning'`, and a failed testing result leaves it at
`'testing'`. -/
theorem c1_stage_guard_witness :
    update_project_stage "planning"
      { status := some "success", file := none, file_name := none } = "planning" ∧
    update_project_stage "testing"
      { status := some "failed", file := none, file_name := none } = "testing" :=
  ⟨(c1_stage_guard "planning" { status := some "success", file := none, file_name := none }).2.1
      rfl (by decide),
   (c1_stage_guard "testing" { status := some "failed", file := none, file_name := none }).1
      (by decide)⟩

/-- Claim C6 (confirmed): saving the memory state and immediately loading the
written snapshot reconstructs exactly the saved `longterm_memory` map (into
any receiving `KnowledgeBase` state), and the load reports success. -/
theorem c6_memory_roundtrip {μ ε : Type} (kb loader : KnowledgeBase μ) (recent : ε) :
    (load_memory_state loader (some (save_memory_state kb recent))).1.longterm_memory
        = kb.longterm_memory ∧
    (load_memory_state loader (some (save_memory_state kb recent))).2 = true :=
  ⟨rfl, rfl⟩

/-- Claim C7 (confirmed): a tick of `check_and_save_memory` saves and resets
`last_save_time` exactly when `now - last_save_time >= 150`, and does nothing
otherwise; consequently a run of ticks strictly before the 150-second mark
followed by one tick exactly at it performs exactly one save, never two. -/
theorem c7_persistence_interval :
    (∀ current_time last_save_time : ℚ,
      (current_time - last_save_time ≥ save_interval →
        check_and_save_memory current_time last_save_time = (current_time, true)) ∧
      (current_time - last_save_time < save_interval →
        check_and_save_memory current_time last_save_time = (last_save_time, false))) ∧
    (∀ (t0 : ℚ) (ticks : List ℚ), (∀ t ∈ ticks, t < t0 + 150) →
      run_memory_ticks t0 (ticks ++ [t0 + 150]) = (t0 + 150, 1)) := by
  constructor
  · intro current_time last_save_time
    constructor
    · intro h
      unfold check_and_save_memory
      rw [if_pos h]
    · intro h
      unfold check_and_save_memory
      rw [if_neg (not_le.mpr h)]
  · intro t0 ticks h
    induction ticks with
    | nil =>
      have hc : t0 + 150 - t0 ≥ save_interval := by
        unfold save_interval
        linarith
      simp [run_memory_ticks, check_and_save_memory, save_interval, hc]
    | cons t ts ih =>
      have ht : t < t0 + 150 := h t (List.mem_cons_self t ts)
      have hc : ¬ (t - t0 ≥ save_interval) := by
        unfold save_interval
        push_neg
        linarith
      have ih2 := ih (fun u hu => h u (List.mem_cons_of_mem t hu))
      simp [run_memory_ticks, check_and_save_memory, hc, ih2]

/-- Claim C7 witness: with `last_save_time = 0`, ticks at 40 and 100 do not
save and the tick at exactly 150 performs the single save; a lone tick whose
gap is 200 seconds saves immediately. -/
theorem c7_persistence_interval_witness :
    check_and_save_memory 200 0 = (200, true) ∧
    run_memory_ticks 0 ([40, 100] ++ [0 + 150]) = (0 + 150, 1) :=
  ⟨(c7_persistence_interval.1 200 0).1 (by norm_num [save_interval]),
   c7_persistence_interval.2 0 [40, 100]
     (by intro t ht; simp at ht; rcases ht with rfl | rfl <;> norm_num)⟩

/-- A registry with no handlers at all. -/
def no_handlers : String → Option Handler := fun _ => none

/-- A sample idle dispatcher state with an empty action log. -/
def sample_state : ActionsState :=
  { context := { project_state := "idle", current_project := none, recent_actions := [] },
    action_log := [] }

/-- An invocation of an action name that no handler matches. -/
def unknown_invocation : ActionInvocation :=
  { name := "deploy_to_production", details := [] }

/-- Claim C2 counterexample: dispatching an unknown action returns `none`
(Python's `None`), not a result with status `'unknown'`, and the action log
is left untouched rather than receiving a record of the attempt — both
contrary to the claim (the absence of mutation is as claimed). -/
theorem c2_counterexample :
    (execute_action no_handlers sample_state unknown_invocation).2 = none ∧
    (execute_action no_handlers sample_state unknown_invocation).1.action_log
        = sample_state.action_log ∧
    ¬ ∃ result : Dict,
        (execute_action no_handlers sample_state unknown_invocation).2 = some result ∧
        result.lookup "status" = some "unknown" := by
  refine ⟨rfl, rfl, ?_⟩
  rintro ⟨result, hr, _⟩
  simp [execute_action, no_handlers] at hr

/-- Claim C2 (corrected): for any action whose name has no matching handler,
`execute_action` performs no mutation at all — neither of the context nor of
the action log — and returns `None`; it only emits a logger warning.  No
`{status: unknown}` result is produced and no action-log record is
appended. -/
theorem c2_unknown_action (handlers : String → Option Handler) (st : ActionsState)
    (action : ActionInvocation) (h : handlers action.name = none) :
    execute_action handlers st action = (st, none) := by
  unfold execute_action
  rw [h]

/-- Claim C2 witness: dispatching the unknown action on the sample state
returns the state unchanged together with `none`. -/
theorem c2_unknown_action_witness :
    execute_action no_handlers sample_state unknown_invocation = (sample_state, none) :=
  c2_unknown_action no_handlers sample_state unknown_invocation rfl

/-- A handler that always raises with message `boom`. -/
def raising_handler : Handler := fun _ st => (st, Except.error "boom")

/-- A registry holding exactly the raising handler under `write_tests`. -/
def sample_handlers : String → Option Handler :=
  fun name => if name = "write_tests" then some raising_handler else none

/-- An invocation of the registered raising handler. -/
def failing_invocation : ActionInvocation := { name := "write_tests", details := [] }

/-- Claim C3 counterexample: when the handler raises, `execute_action`
returns `none` (Python's `None`) — it does not return an `ActionResult` with
status `'error'` carrying the message; the exception is recorded only in the
action log as `{"error": message}`. -/
theorem c3_counterexample :
    (execute_action sample_handlers sample_state failing_invocation).2 = none ∧
    (execute_action sample_handlers sample_state failing_invocation).1.action_log
        = [("write_tests", LogPayload.err "boom")] ∧
    ¬ ∃ result : Dict,
        (execute_action sample_handlers sample_state failing_invocation).2 = some result ∧
        result.lookup "status" = some "error" := by
  refine ⟨rfl, rfl, ?_⟩
  rintro ⟨result, hr, _⟩
  simp [execute_action, sample_handlers, raising_handler, failing_invocation] at hr

/-- Claim C3 (corrected): when a registered handler raises during dispatch,
`execute_action` catches the exception (it returns normally on every input),
appends the record `(name, {"error": message})` to the action log, skips the
`recent_actions` update, and returns `None` — not an `ActionResult` with
status `'error'`.  The exception never propagates to the caller. -/
theorem c3_handler_exception (handlers : String → Option Handler) (st st1 : ActionsState)
    (action : ActionInvocation) (action_method : Handler) (msg : String)
    (hfound : handlers action.name = some action_method)
    (hraise : action_method action.details st = (st1, Except.error msg)) :
    execute_action handlers st action =
      ({ st1 with action_log := st1.action_log ++ [(action.name, LogPayload.err msg)] },
        none) := by
  simp only [execute_action, hfound, hraise]

/-- Claim C3 witness: dispatching the raising handler on the sample state
yields the state with exactly the error record appended, and `none`. -/
theorem c3_handler_exception_witness :
    execute_action sample_handlers sample_state failing_invocation =
      ({ sample_state with action_log := [("write_tests", LogPayload.err "boom")] }, none) :=
  c3_handler_exception sample_handlers sample_state sample_state failing_invocation
    raising_handler "boom" rfl rfl

/-- Claim C9 (confirmed): `start_new_project` invoked while the project state
is already `'in_progress'` returns a `{status: failed}` result, mutates
neither the context nor the log, and issues no `create_file` call. -/
theorem c9_reject_when_in_progress (st : ActionsState) (details : Dict)
    (h : st.context.project_state = "in_progress") :
    start_new_project st details =
      (st, [], [("status", "failed"), ("reason", "Project already in progress")]) := by
  unfold start_new_project
  rw [if_pos h]

/-- A dispatcher state with a project already in progress. -/
def busy_state : ActionsState :=
  { context := { project_state := "in_progress", current_project := some "demo",
                 recent_actions := [] },
    action_log := [] }

/-- Claim C9 witness: on the busy state the call is rejected with the failed
result and the state is returned unchanged with no files created. -/
theorem c9_reject_when_in_progress_witness :
    start_new_project busy_state [] =
      (busy_state, [], [("status", "failed"), ("reason", "Project already in progress")]) :=
  c9_reject_when_in_progress busy_state [] rfl

/-- Under project state `'in_progress'` every `code_development` action
scores 8 in the `priority_score` rule table. -/
theorem priority_score_in_progress_code_development (a : CatalogAction)
    (h : a.type = "code_development") : priority_score "in_progress" a = 8 := by
  simp [priority_score, h]

/-- Under project state `'in_progress'` every `git` action scores 6 in the
`priority_score` rule table. -/
theorem priority_score_in_progress_git (a : CatalogAction)
    (h : a.type = "git") : priority_score "in_progress" a = 6 := by
  simp [priority_score, h]

/-- Claim C4 counterexample: when the oracle call raises,
`ConsciousnessEmulator.select_action` falls back to the fixed literal
`{"name": "continue_project", "type": "default"}` — an action that is not in
the catalog at all, hence is not any candidate of the priority-scoring
heuristic, let alone its highest-scoring one.  `Actions.prioritize_actions`
is never consulted (the repository never calls it). -/
theorem c4_counterexample :
    select_action (Except.error "oracle unavailable") = default_selected_action ∧
    default_selected_action ∉ get_available_actions ∧
    default_selected_action ∉ prioritize_actions "in_progress" := by
  refine ⟨rfl, by decide, fun hmem => ?_⟩
  exact (by decide : default_selected_action ∉ get_available_actions)
    ((List.perm_insertionSort (score_desc "in_progress") get_available_actions).mem_iff.mp hmem)

/-- Claim C4 (corrected): when the oracle errors, `select_action` returns the
fixed default action `continue_project` rather than consulting the
priority-scoring heuristic.  The heuristic itself, `prioritize_actions`, does
score deterministically from the fixed rule table with ties broken by catalog
order (stable sort), and under state `'in_progress'` every `code_development`
action scores strictly above every `git` action, so in its ranking no `git`
action ever precedes a `code_development` action. -/
theorem c4_fallback_and_ranking :
    (∀ e : String, select_action (Except.error e) = default_selected_action) ∧
    (∀ a b : CatalogAction, a.type = "code_development" → b.type = "git" →
      priority_score "in_progress" b < priority_score "in_progress" a) ∧
    List.Pairwise
      (fun a b => ¬ (a.type = "git" ∧ b.type = "code_development"))
      (prioritize_actions "in_progress") := by
  refine ⟨fun _ => rfl, fun a b ha hb => ?_, ?_⟩
  · rw [priority_score_in_progress_code_development a ha,
      priority_score_in_progress_git b hb]
    norm_num
  · have hs := List.sorted_insertionSort (score_desc "in_progress") get_available_actions
    refine hs.imp ?_
    intro a b hab
    rintro ⟨ha, hb⟩
    simp only [score_desc] at hab
    rw [priority_score_in_progress_git a ha,
      priority_score_in_progress_code_development b hb] at hab
    norm_num at hab

/-- Claim C4 witness: a concrete oracle timeout yields the default action,
and the concrete `git` action `commit_changes` scores strictly below the
concrete `code_development` action `generate_code` in state
`'in_progress'`. -/
theorem c4_fallback_and_ranking_witness :
    select_action (Except.error "timeout") = default_selected_action ∧
    priority_score "in_progress" (mkAction "commit_changes" "git") <
      priority_score "in_progress" (mkAction "generate_code" "code_development") :=
  ⟨c4_fallback_and_ranking.1 "timeout",
   c4_fallback_and_ranking.2.1 (mkAction "generate_code" "code_development")
     (mkAction "commit_changes" "git") rfl rfl⟩

/-- A sample progress record: three logged actions, counters at
`total_actions = 3` and all failure counters zero, started at time 0. -/
def sample_progress : ProgressRecord :=
  { actions_performed := ["research_and_plan", "create_file", "generate_code"],
    metrics := { start_time := 0, total_actions := 3, errors_encountered := 0,
                 tests_written := 0, commits_made := 0 } }

/-- Claim C8 counterexample: at elapsed time 1/2 second the code computes
`action_frequency = 3 / (1/2) = 6`, dividing by the raw elapsed time; with
the claimed floored denominator `max(1/2, 1) = 1` it would be 3.  So the
`action_frequency` denominator is not floored at 1 and the code differs from
the claimed computation. -/
theorem c8_counterexample :
    (analyze_progress (1/2) sample_progress).action_frequency = 6 ∧
    (analyze_progress_claimed (1/2) sample_progress).action_frequency = 3 ∧
    analyze_progress (1/2) sample_progress ≠ analyze_progress_claimed (1/2) sample_progress := by
  have h1 : (analyze_progress (1/2) sample_progress).action_frequency = 6 := by
    norm_num [analyze_progress, sample_progress]
  have h2 : (analyze_progress_claimed (1/2) sample_progress).action_frequency = 3 := by
    have hm : max ((1:ℚ)/2 - 0) 1 = 1 := by
      rw [max_eq_right]
      norm_num
    norm_num [analyze_progress_claimed, sample_progress, hm]
  refine ⟨h1, h2, fun hEq => ?_⟩
  rw [hEq, h2] at h1
  norm_num at h1

/-- Claim C8 (corrected): the three counter-based metrics (`error_rate`,
`test_coverage`, `commit_frequency`) share the denominator
`max(total_actions, 1)`, which is at least 1, so they never divide by zero
for any counter values; `action_frequency`, however, divides by the raw
elapsed time `now - start_time` with no flooring, and is the true ratio only
when that elapsed time is nonzero. -/
theorem c8_metric_denominators (now : ℚ) (p : ProgressRecord) :
    (∃ d : ℚ, 1 ≤ d ∧
      (analyze_progress now p).error_rate * d = p.metrics.errors_encountered ∧
      (analyze_progress now p).test_coverage * d = p.metrics.tests_written ∧
      (analyze_progress now p).commit_frequency * d = p.metrics.commits_made) ∧
    (now - p.metrics.start_time ≠ 0 →
      (analyze_progress now p).action_frequency * (now - p.metrics.start_time)
        = p.actions_performed.length) := by
  have hd1 : (1 : ℚ) ≤ ((max p.metrics.total_actions 1 : ℕ) : ℚ) := by
    exact_mod_cast le_max_right p.metrics.total_actions 1
  have hd0 : ((max p.metrics.total_actions 1 : ℕ) : ℚ) ≠ 0 :=
    ne_of_gt (lt_of_lt_of_le zero_lt_one hd1)
  constructor
  · exact ⟨((max p.metrics.total_actions 1 : ℕ) : ℚ), hd1,
      div_mul_cancel₀ _ hd0, div_mul_cancel₀ _ hd0, div_mul_cancel₀ _ hd0⟩
  · intro h
    exact div_mul_cancel₀ _ h

/-- Claim C8 witness: at time 1 on the sample record the elapsed time is
nonzero and `action_frequency` times it recovers the action count. -/
theorem c8_metric_denominators_witness :
    (1 : ℚ) - sample_progress.metrics.start_time ≠ 0 ∧
    (analyze_progress 1 sample_progress).action_frequency *
      ((1 : ℚ) - sample_progress.metrics.start_time)
        = sample_progress.actions_performed.length :=
  ⟨by norm_num [sample_progress],
   (c8_metric_denominators 1 sample_progress).2 (by norm_num [sample_progress])⟩

/-- Claim C5 witness: the completion predicate instantiated at the planning
stage with exactly its required artifact present. -/
theorem c5_stage_complete_witness :
    is_stage_complete "planning" ["research_and_plan.md"] = true :=
  (c5_stage_complete.1 "planning" ["research_and_plan.md"]).mpr (by decide)

/-- Claim C6 witness: a concrete round trip through save and load recovers
the concrete long-term memory map. -/
theorem c6_memory_roundtrip_witness :
    (load_memory_state
        { longterm_memory := ([] : List (String × String)), project_state := "idle" }
        (some (save_memory_state
          { longterm_memory := [("lesson", "tests matter")], project_state := "in_progress" }
          ([] : List String)))).1.longterm_memory = [("lesson", "tests matter")] ∧
    (load_memory_state
        { longterm_memory := ([] : List (String × String)), project_state := "idle" }
        (some (save_memory_state
          { longterm_memory := [("lesson", "tests matter")], project_state := "in_progress" }
          ([] : List String)))).2 = true :=
  c6_memory_roundtrip
    { longterm_memory := [("lesson", "tests matter")], project_state := "in_progress" }
    { longterm_memory := ([] : List (String × String)), project_state := "idle" }
    ([] : List String)
